import Mathlib

/-!
Shallow embedding of the orchestration core of the Realistic-image-generation-agent
repository (FastAPI app in app.py, CLI entry in main.py, Orchestrator in
src/orchestrator.py, SupabaseManager in src/database.py, OpenAIGenerator in
src/llm.py, RandomGenerator in src/utils.py).

Python conventions used by the embedding:
  optional values are Option, Python integers are Int, Python truthiness of an
  optional string (`if x:`) is the predicate truthy below, loosely typed JSON
  fields coming back from Supabase are the PyVal type (string, list of strings,
  or anything else), and randomness (random.choice, random.randint) is made
  explicit by threading index/seed parameters.
-/

namespace ImageAgent

/-- Loosely typed value of a Supabase JSON column as inspected by the Python
code with isinstance checks: a string, a list of strings, or anything else
(None, a number, ...), which the code treats uniformly as the null case. -/
inductive PyVal where
  | str (s : String)
  | list (l : List String)
  | null
  deriving Repr, DecidableEq

/-- Python truthiness of an optional string: None and the empty string are
falsy, every other string is truthy. -/
def truthy : Option String → Bool
  | some s => !(s == "")
  | none => false

/-! ### app.py : RunRequest and the duplication expander (trigger_run) -/

/-- The pydantic RunRequest model of app.py (fields in source order). -/
structure RunRequest where
  save_remotely : Bool
  drive_folder_id : Option String
  category : Option String
  min_val : Option Int
  max_val : Option Int
  resolution : Option String
  aspect : Option String
  mode : Option String
  model_version : Option String
  image_urls : Option (List String)
  prompts : Option (List String)
  image_selection_strategy : Option String
  source_image_folder_ids : Option (List String)
  spawn_duplicate_requests : Bool
  random_image_prefix : Option String
  random_prefix_target_folder_ids : Option (List String)
  deriving Repr, DecidableEq

/-- The default RunRequest as declared by the pydantic model in app.py. -/
def defaultRunRequest : RunRequest :=
  { save_remotely := true
    drive_folder_id := some "1H4wWGNaY01skMzUvQtQmHWlabaTc4rHx"
    category := none
    min_val := none
    max_val := none
    resolution := none
    aspect := none
    mode := some "standard"
    model_version := none
    image_urls := none
    prompts := none
    image_selection_strategy := some "random"
    source_image_folder_ids := none
    spawn_duplicate_requests := false
    random_image_prefix := none
    random_prefix_target_folder_ids := none }

/-- app.py line 98: duplication_count = request.max_val if request.max_val is
not None else 5. -/
def duplication_count (r : RunRequest) : Int :=
  r.max_val.getD 5

/-- app.py lines 103-107: the per-copy mutation. model_copy gives an identical
copy, then new_req.min_val = new_req.min_val (a no-op kept in the source) and
new_req.max_val = new_req.min_val. -/
def dup_copy (r : RunRequest) : RunRequest :=
  { r with max_val := r.min_val }

/-- Expansion of one request: app.py lines 95-112. A duplicated request
contributes range(duplication_count) copies (Python range of a non-positive
number is empty, modelled by Int.toNat); a non-duplicated request passes
through unchanged. -/
def expand_one (r : RunRequest) : List RunRequest :=
  if r.spawn_duplicate_requests then
    List.replicate (duplication_count r).toNat (dup_copy r)
  else [r]

/-- The batch expansion loop of trigger_run (app.py lines 91-112): final_requests
starts empty and each request appends either its duplicates or itself. -/
def expand_requests (requests : List RunRequest) : List RunRequest :=
  requests.foldl
    (fun acc r =>
      if r.spawn_duplicate_requests then
        acc ++ List.replicate (duplication_count r).toNat (dup_copy r)
      else acc ++ [r])
    []

/-! ### app.py run_workflow calling main.main : keyword binding -/

/-- The parameter names accepted by main.main (main.py line 22); the signature
has no var-keyword parameter. -/
def main_accepted_params : List String :=
  ["save_remotely", "drive_folder_id", "category", "min_val", "max_val",
   "resolution", "aspect_ratio", "mode", "model_version", "image_urls",
   "prompts"]

/-- The keyword-argument names run_workflow passes to main.main
(app.py lines 62-78); the same fifteen names on every request. -/
def run_workflow_passed_kwargs : List String :=
  ["save_remotely", "drive_folder_id", "category", "min_val", "max_val",
   "resolution", "aspect_ratio", "mode", "model_version", "image_urls",
   "prompts", "image_selection_strategy", "source_image_folder_ids",
   "random_image_prefix", "random_prefix_target_folder_ids"]

/-- Python keyword-call binding for a function without var-keyword parameter:
the call binds exactly when every passed keyword names a parameter; an
unexpected keyword raises TypeError before the function body runs. -/
def call_binds (params kwargs : List String) : Bool :=
  kwargs.all (fun k => params.contains k)

/-- Outcome of one run_workflow invocation (app.py lines 52-80): either the
pipeline body of main.main runs, or an exception is caught by the
try/except and only logged. -/
inductive RunWorkflowOutcome where
  | pipelineRan
  | exceptionLogged
  deriving Repr, DecidableEq

/-- run_workflow as scheduled by the /run endpoint: the call to main.main binds
its keywords first; a binding failure raises TypeError, caught by the
except clause at app.py lines 79-80. The keyword names do not depend on the
request, so the outcome is the same for every request. -/
def run_workflow_outcome : RunWorkflowOutcome :=
  if call_binds main_accepted_params run_workflow_passed_kwargs then
    RunWorkflowOutcome.pipelineRan
  else RunWorkflowOutcome.exceptionLogged

/-! ### src/utils.py : RandomGenerator -/

/-- RandomGenerator.get_random_category (src/utils.py lines 6-10): the
random.choice call is commented out in the source; it returns "MD". -/
def get_random_category : String := "MD"

/-- The value a successful random.randint(lo, hi) draw yields for a given
seed: some integer of [lo, hi], the seed picking which one. -/
def randval (lo hi : Int) (seed : Nat) : Int :=
  lo + ((seed % (hi - lo + 1).toNat : Nat) : Int)

/-- Python random.randint(lo, hi) with the draw made explicit as a seed:
raises ValueError when lo > hi, otherwise returns a value in [lo, hi]. -/
def randint (lo hi : Int) (seed : Nat) : Except String Int :=
  if lo ≤ hi then Except.ok (randval lo hi seed)
  else Except.error "empty range for randrange"

/-- RandomGenerator.get_random_prompt_count (src/utils.py lines 12-15):
returns random.randint(min_val, max_val). -/
def get_random_prompt_count (min_val max_val : Int) (seed : Nat) : Except String Int :=
  randint min_val max_val seed

/-- Outcome of one fire-and-forget background task as app.py runs it: the body
either completes or raises, and run_workflow catches every exception and
logs it (app.py lines 79-80). -/
inductive TaskOutcome where
  | completed
  | loggedError (msg : String)
  deriving Repr, DecidableEq

/-- One background task wrapped in the run_workflow try/except: an exception
becomes a logged error, a normal result completes. -/
def run_task (job : Except String Int) : TaskOutcome :=
  match job with
  | Except.error e => TaskOutcome.loggedError e
  | Except.ok _ => TaskOutcome.completed

/-- The endpoint schedules one independent background task per expanded request
(app.py lines 114-133); each is wrapped separately. -/
def run_batch (jobs : List (Except String Int)) : List TaskOutcome :=
  jobs.map run_task

/-! ### src/database.py get_model_config and main.py configuration resolution -/

/-- The keys of the db_config dict that main.py inspects. A field holding none
models an absent key; main.py reads resolution and aspect_ratio with
dict.get and tests membership of the model_version key. -/
structure ModelCfg where
  resolution : Option String
  aspect : Option String
  model_version : Option String
  deriving Repr, DecidableEq

/-- The empty db_config dict (main.py line 36). -/
def emptyCfg : ModelCfg :=
  { resolution := none, aspect := none, model_version := none }

/-- One row of the model_config table as selected by get_model_config:
the name column and the config JSON blob. -/
structure ModelRecord where
  name : Option String
  config : ModelCfg
  deriving Repr, DecidableEq

/-- SupabaseManager.get_model_config (src/database.py lines 72-109) given the
query result row: no row (or a store exception, caught inside) yields None;
otherwise the config blob, with the name column injected as model_version
when name is truthy. -/
def get_model_config (row : Option ModelRecord) : Option ModelCfg :=
  match row with
  | none => none
  | some r =>
      if truthy r.name then some { r.config with model_version := r.name }
      else some r.config

/-- The hardcoded fallback model version of main.py line 35. -/
def default_model_version : String := "google/nano-banana-pro"

/-- Result of the model-version and config resolution of main.py. -/
structure VersionResolution where
  model_version : Option String
  db_config : ModelCfg
  deriving Repr, DecidableEq

/-- main.py lines 33-50: when a config was fetched it becomes db_config and its
model_version key (if present) overwrites the requested version; when
nothing was fetched, db_config stays empty and a None requested version
falls back to the hardcoded default. -/
def resolve_version (fetched : Option ModelCfg) (requested : Option String) :
    VersionResolution :=
  match fetched with
  | some cfg =>
      { model_version :=
          match cfg.model_version with
          | some v => some v
          | none => requested
        db_config := cfg }
  | none =>
      { model_version :=
          match requested with
          | none => some default_model_version
          | some v => some v
        db_config := emptyCfg }

/-- main.py lines 52-56: the caller overrides are applied with Python
truthiness, so a None or empty-string override leaves db_config unchanged. -/
def apply_overrides (cfg : ModelCfg) (resolution aspect : Option String) :
    ModelCfg :=
  let cfg1 := if truthy resolution then { cfg with resolution := resolution } else cfg
  if truthy aspect then { cfg1 with aspect := aspect } else cfg1

/-- main.py line 59: current_res = db_config.get("resolution", "2K"). -/
def final_resolution (cfg : ModelCfg) : String :=
  cfg.resolution.getD "2K"

/-- main.py line 60: current_ar = db_config.get("aspect_ratio", "16:9"). -/
def final_aspect (cfg : ModelCfg) : String :=
  cfg.aspect.getD "16:9"

/-! ### src/orchestrator.py : Orchestrator.run_flow -/

/-- One row of nano_banana_prompt_config as selected by get_prompt_config
(src/database.py lines 15-39): system_prompt read with dict.get default "",
and three loosely typed columns. -/
structure PromptConfig where
  system_prompt : Option String
  standard_prompt : PyVal
  dynamic_prompt : PyVal
  image_urls : PyVal
  deriving Repr, DecidableEq

/-- Observable collaborator calls made during run_flow, in order. -/
inductive Event where
  | fetchPromptConfig (category : String)
  | imagesFromConfig
  | openaiGenerate (instruction : String) (count : Int)
  | appendPrompts (category : String) (prompts : List String)
  deriving Repr, DecidableEq

/-- The collaborators and randomness run_flow consumes: the Supabase
prompt-config lookup (None covers both a missing record and a store
exception, which get_prompt_config catches and turns into None), the
random.choice index, the random.randint seed, and the OpenAI prompt
generation (which catches its own failures and returns an empty list, so a
failure is the constant-empty behaviour of this field). -/
structure Env where
  getPromptConfig : String → Option PromptConfig
  choiceIdx : Nat
  randSeed : Nat
  openai : String → Int → List String

/-- python random.choice with the draw index made explicit (only ever applied
to nonempty lists in run_flow). -/
def pychoice (l : List String) (idx : Nat) : String :=
  l.getD (idx % l.length) ""

/-- src/orchestrator.py lines 25-33, step 1: a truthy provided category is kept;
otherwise, when configuration is needed, a random category is selected;
otherwise the (falsy) provided value is kept. -/
def resolve_category (category : Option String) (needs_config : Bool) :
    Option String :=
  if truthy category then category
  else if needs_config then some get_random_category
  else category

/-- Python str.split with a one-character separator: splits at every
occurrence, keeping empty pieces, and the split of the empty string is the
singleton empty string. -/
def py_split (s : String) (sep : Char) : List String :=
  (s.data.splitOn sep).map List.asString

/-- Python str.strip() with no argument: drops leading and trailing
whitespace. -/
def py_strip (s : String) : String :=
  ((s.data.dropWhile Char.isWhitespace).reverse.dropWhile Char.isWhitespace).reverse.asString

/-- src/orchestrator.py lines 46-58, image handling of a fetched value:
a string splits on commas with each entry stripped, a list is taken as is,
anything else becomes the empty list. -/
def config_image_urls : PyVal → List String
  | PyVal.str s => (py_split s ',').map py_strip
  | PyVal.list l => l
  | PyVal.null => []

/-- src/orchestrator.py lines 66-84: instruction variant selection. Mode
"random" draws from dynamic_prompt, any other mode from standard_prompt;
a value that is not a nonempty list yields the empty instruction. -/
def select_instruction (cfg : PromptConfig) (mode : String) (idx : Nat) :
    String :=
  if mode == "random" then
    match cfg.dynamic_prompt with
    | PyVal.list l => if l.isEmpty then "" else pychoice l idx
    | _ => ""
  else
    match cfg.standard_prompt with
    | PyVal.list l => if l.isEmpty then "" else pychoice l idx
    | _ => ""

/-- src/orchestrator.py line 87: prompt_instruction =
f-string of system_prompt, a blank line, and the selected instruction
(system_prompt read with dict.get default ""). -/
def compose_instruction (cfg : PromptConfig) (mode : String) (idx : Nat) :
    String :=
  cfg.system_prompt.getD "" ++ "\n\n" ++ select_instruction cfg mode idx

/-- The triple run_flow returns (src/orchestrator.py lines 124-128). -/
structure FlowResult where
  category : Option String
  image_urls : List String
  prompts : List String
  deriving Repr, DecidableEq

/-- Orchestrator.run_flow (src/orchestrator.py lines 14-128), with the trace of
collaborator calls made explicit. The only uncaught exception inside the
flow is the ValueError of random.randint when min > max, modelled by the
Except error. -/
def run_flow (env : Env) (category : Option String) (min_val max_val : Option Int)
    (mode : String) (provided_image_urls provided_prompts : Option (List String)) :
    Except String (FlowResult × List Event) :=
  let needs_config := provided_image_urls.isNone || provided_prompts.isNone
  let category1 := resolve_category category needs_config
  let do_fetch := needs_config && truthy category1
  let config : Option PromptConfig :=
    if do_fetch then env.getPromptConfig (category1.getD "") else none
  let ev_fetch : List Event :=
    if do_fetch then [Event.fetchPromptConfig (category1.getD "")] else []
  let image_step : List String × List Event :=
    match provided_image_urls with
    | some l => (l, [])
    | none =>
        match config with
        | some cfg => (config_image_urls cfg.image_urls, [Event.imagesFromConfig])
        | none => ([], [])
  let image_urls := image_step.1
  let ev_img := image_step.2
  match provided_prompts with
  | some ps =>
      Except.ok (⟨category1, image_urls, ps⟩, ev_fetch ++ ev_img)
  | none =>
      match config with
      | none =>
          Except.ok (⟨category1, image_urls, []⟩, ev_fetch ++ ev_img)
      | some cfg =>
          let prompt_instruction := compose_instruction cfg mode env.choiceIdx
          let target_min := min_val.getD 2
          let target_max := max_val.getD 5
          match get_random_prompt_count target_min target_max env.randSeed with
          | Except.error e => Except.error e
          | Except.ok prompt_count =>
              let generated := env.openai prompt_instruction prompt_count
              let ev_gen := [Event.openaiGenerate prompt_instruction prompt_count]
              let ev_app : List Event :=
                if generated.isEmpty then []
                else [Event.appendPrompts (category1.getD "") generated]
              Except.ok (⟨category1, image_urls, generated⟩,
                ev_fetch ++ ev_img ++ ev_gen ++ ev_app)

/-! ### Concrete sample inputs used to evaluate the definitions -/

/-- A duplicated request with min_val 7 and max_val 3. -/
def dupRequest73 : RunRequest :=
  { defaultRunRequest with
      spawn_duplicate_requests := true, min_val := some 7, max_val := some 3 }

/-- A duplicated request with max_val 0. -/
def dupRequest0 : RunRequest :=
  { defaultRunRequest with
      spawn_duplicate_requests := true, max_val := some 0 }

/-- A model_config row carrying a name and a stored resolution. -/
def sampleModelRecord : ModelRecord :=
  { name := some "google/nano-banana-pro-v2"
    config := { resolution := some "4K", aspect := none, model_version := none } }

/-- A stored parameter set with resolution 4K only. -/
def storedCfg4K : ModelCfg :=
  { resolution := some "4K", aspect := none, model_version := none }

/-- A prompt-config row whose image_urls column is a comma-joined string. -/
def sampleCfgStrImages : PromptConfig :=
  { system_prompt := some "SYS"
    standard_prompt := PyVal.list ["s1", "s2"]
    dynamic_prompt := PyVal.list ["d1", "d2"]
    image_urls := PyVal.str "http://a.png, http://b.png" }

/-- An environment whose store has no record for any category and whose
prompt generation yields nothing. -/
def envNoStore : Env :=
  { getPromptConfig := fun _ => none
    choiceIdx := 0
    randSeed := 0
    openai := fun _ _ => [] }

/-- An environment whose store returns sampleCfgStrImages for every category
and whose prompt generation yields nothing (a failing OpenAI call). -/
def envStoreNoGen : Env :=
  { getPromptConfig := fun _ => some sampleCfgStrImages
    choiceIdx := 0
    randSeed := 0
    openai := fun _ _ => [] }

/-- An environment whose store returns sampleCfgStrImages for every category
and whose prompt generation yields one prompt. -/
def envStoreGen : Env :=
  { getPromptConfig := fun _ => some sampleCfgStrImages
    choiceIdx := 0
    randSeed := 0
    openai := fun _ _ => ["generated prompt"] }

/-! ## Theorems -/

/-- The batch loop of trigger_run is the in-order concatenation of the
per-request expansions (helper, proved by induction on the batch with a
generalized accumulator). -/
theorem expand_requests_eq_flatMap_aux (rs acc : List RunRequest) :
    rs.foldl
      (fun acc r =>
        if r.spawn_duplicate_requests then
          acc ++ List.replicate (duplication_count r).toNat (dup_copy r)
        else acc ++ [r]) acc
    = acc ++ rs.flatMap expand_one := by
  induction rs generalizing acc with
  | nil => simp
  | cons r rs ih =>
      simp only [List.foldl_cons, List.flatMap_cons, expand_one, ih]
      by_cases h : r.spawn_duplicate_requests <;> simp [h]

/-- C1: a request with spawn_duplicate_requests true expands to exactly n
copies, n being max_val when set and 5 otherwise (here with n nonnegative,
the spawned-count reading of exactly-n; the n below 0 edge case is the
zero-copies behaviour treated with the batch claim); every copy has
max_val overwritten to the original min_val, so min_val equals max_val on
each copy, and every other field is copied verbatim. -/
theorem duplicate_fanout_spec (r : RunRequest)
    (hdup : r.spawn_duplicate_requests = true)
    (hn : 0 ≤ duplication_count r) :
    duplication_count r = r.max_val.getD 5 ∧
    ((expand_requests [r]).length : Int) = duplication_count r ∧
    ∀ c ∈ expand_requests [r],
      c = { r with max_val := r.min_val } ∧
      c.min_val = r.min_val ∧ c.max_val = r.min_val ∧ c.min_val = c.max_val := by
  have hexp : expand_requests [r] =
      List.replicate (duplication_count r).toNat (dup_copy r) := by
    simp [expand_requests, hdup]
  refine ⟨rfl, ?_, ?_⟩
  · rw [hexp, List.length_replicate]
    exact Int.toNat_of_nonneg hn
  · intro c hc
    rw [hexp] at hc
    have hcd := List.eq_of_mem_replicate hc
    subst hcd
    exact ⟨rfl, rfl, rfl, rfl⟩

/-- C1 witness: the request with duplicate true, min_val 7, max_val 3 expands
to exactly 3 copies, each with min_val 7 and max_val 7. -/
theorem duplicate_fanout_spec_witness :
    duplication_count dupRequest73 = 3 ∧
    ((expand_requests [dupRequest73]).length : Int) = duplication_count dupRequest73 ∧
    ∀ c ∈ expand_requests [dupRequest73], c.min_val = some 7 ∧ c.max_val = some 7 := by
  have h := duplicate_fanout_spec dupRequest73 rfl (by decide)
  refine ⟨by decide, h.2.1, fun c hc => ?_⟩
  exact ⟨((h.2.2 c hc).2.1).trans rfl, ((h.2.2 c hc).2.2.1).trans rfl⟩

/-- C5: the batch expansion is the in-input-order concatenation of, per
request, the unchanged singleton (duplicate false) or the duplicate copies
in generation order; a duplicated request whose count is at most 0
contributes zero elements. -/
theorem batch_expansion_spec (rs : List RunRequest) :
    expand_requests rs = rs.flatMap expand_one ∧
    (∀ r : RunRequest, r.spawn_duplicate_requests = false → expand_one r = [r]) ∧
    (∀ r : RunRequest, r.spawn_duplicate_requests = true →
        expand_one r = List.replicate (duplication_count r).toNat (dup_copy r)) ∧
    (∀ r : RunRequest, r.spawn_duplicate_requests = true → duplication_count r ≤ 0 →
        expand_one r = []) := by
  refine ⟨?_, ?_, ?_, ?_⟩
  · rw [expand_requests, expand_requests_eq_flatMap_aux]
    simp
  · intro r h
    simp [expand_one, h]
  · intro r h
    simp [expand_one, h]
  · intro r h hle
    simp [expand_one, h, Int.toNat_of_nonpos hle]

/-- C5 witness: a batch of a duplicated request with max_val 0 followed by a
plain request expands to just the plain request; the max_val 0 request
contributes zero copies. -/
theorem batch_expansion_spec_witness :
    expand_requests [dupRequest0, defaultRunRequest] =
      [dupRequest0, defaultRunRequest].flatMap expand_one ∧
    expand_one dupRequest0 = [] ∧
    expand_requests [dupRequest0, defaultRunRequest] = [defaultRunRequest] :=
  ⟨(batch_expansion_spec [dupRequest0, defaultRunRequest]).1,
   (batch_expansion_spec []).2.2.2 dupRequest0 rfl (by decide),
   by decide⟩

/-- C3: the keyword names run_workflow passes to main.main (the same names on
every request) include four that the signature of main.main does not
accept, so the call never binds: every scheduled background invocation
raises TypeError before the pipeline body runs, and run_workflow catches
and logs it. -/
theorem run_workflow_typeerror_spec :
    call_binds main_accepted_params run_workflow_passed_kwargs = false ∧
    run_workflow_outcome = RunWorkflowOutcome.exceptionLogged := by
  exact ⟨by decide, by decide⟩

/-- C9: get_random_prompt_count returns a value of the inclusive range
[lo, hi] whenever lo is at most hi (and 3,3 always yields 3), fails with
the ValueError of random.randint when lo exceeds hi, and the failure of
one background task is caught by its own run_workflow wrapper, each task
of the batch being wrapped independently. -/
theorem pick_count_spec (lo hi : Int) (seed : Nat) :
    (lo ≤ hi → get_random_prompt_count lo hi seed = Except.ok (randval lo hi seed) ∧
        lo ≤ randval lo hi seed ∧ randval lo hi seed ≤ hi) ∧
    (∀ s : Nat, get_random_prompt_count 3 3 s = Except.ok 3) ∧
    (lo > hi → get_random_prompt_count lo hi seed = Except.error "empty range for randrange") ∧
    (∀ (jobs : List (Except String Int)) (i : Nat),
        (run_batch jobs).get? i = (jobs.get? i).map run_task) ∧
    (∀ e, run_task (Except.error e) = TaskOutcome.loggedError e) := by
  refine ⟨?_, ?_, ?_, ?_, fun _ => rfl⟩
  · intro h
    have hmod : seed % (hi - lo + 1).toNat < (hi - lo + 1).toNat :=
      Nat.mod_lt _ (by omega)
    refine ⟨by simp [get_random_prompt_count, randint, h], ?_, ?_⟩
    · unfold randval
      omega
    · unfold randval
      omega
  · intro s
    norm_num [get_random_prompt_count, randint, randval]
  · intro h
    simp [get_random_prompt_count, randint]
    omega
  · intro jobs i
    simp [run_batch]

/-- C9 witness: pickCount 2 5 succeeds with a value of [2, 5], and
pickCount 5 2 fails with the InvalidRange error. -/
theorem pick_count_spec_witness :
    get_random_prompt_count 2 5 0 = Except.ok (randval 2 5 0) ∧
    2 ≤ randval 2 5 0 ∧ randval 2 5 0 ≤ 5 ∧
    get_random_prompt_count 5 2 0 = Except.error "empty range for randrange" := by
  have h1 := (pick_count_spec 2 5 0).1 (by decide)
  have h2 := (pick_count_spec 5 2 0).2.2.1 (by decide)
  exact ⟨h1.1, h1.2.1, h1.2.2, h2⟩

/-- C6 counterexample: the overrides are applied with Python truthiness, not a
null check. The non-null override some "" on a stored resolution 4K leaves
the stored value in place, so the resolved resolution is 4K and not the
supplied override value. -/
theorem override_nonnull_cex :
    (some "" : Option String) ≠ none ∧
    apply_overrides storedCfg4K (some "") none = storedCfg4K ∧
    final_resolution (apply_overrides storedCfg4K (some "") none) = "4K" ∧
    ("4K" : String) ≠ "" := by
  exact ⟨by decide, by decide, by decide, by decide⟩

/-- C6 (amended): any truthy (non-null and non-empty) caller-supplied
resolution or aspect-ratio override replaces the corresponding field of
the parameter set, and a field still unset after the overrides resolves to
the hardcoded defaults 2K and 16:9. -/
theorem override_precedence_spec (stored : ModelCfg) (res asp : Option String) :
    (∀ s, res = some s → s ≠ "" →
        (apply_overrides stored res asp).resolution = some s ∧
        final_resolution (apply_overrides stored res asp) = s) ∧
    (∀ s, asp = some s → s ≠ "" →
        (apply_overrides stored res asp).aspect = some s ∧
        final_aspect (apply_overrides stored res asp) = s) ∧
    ((apply_overrides stored res asp).resolution = none →
        final_resolution (apply_overrides stored res asp) = "2K") ∧
    ((apply_overrides stored res asp).aspect = none →
        final_aspect (apply_overrides stored res asp) = "16:9") := by
  refine ⟨?_, ?_, ?_, ?_⟩
  · rintro s rfl hs
    have ht : truthy (some s) = true := by simp [truthy, hs]
    by_cases ha : truthy asp <;>
      simp [apply_overrides, ht, ha, final_resolution]
  · rintro s rfl hs
    have ht : truthy (some s) = true := by simp [truthy, hs]
    by_cases hr : truthy res <;>
      simp [apply_overrides, ht, hr, final_aspect]
  · intro h
    simp [final_resolution, h]
  · intro h
    simp [final_aspect, h]

/-- C6 witness: stored resolution 4K with override 2K resolves to 2K, and with
no stored record and no overrides the resolved resolution is 2K and the
resolved aspect ratio is 16:9. -/
theorem override_precedence_spec_witness :
    (apply_overrides storedCfg4K (some "2K") none).resolution = some "2K" ∧
    final_resolution (apply_overrides storedCfg4K (some "2K") none) = "2K" ∧
    final_resolution (apply_overrides emptyCfg none none) = "2K" ∧
    final_aspect (apply_overrides emptyCfg none none) = "16:9" := by
  have h1 := (override_precedence_spec storedCfg4K (some "2K") none).1 "2K" rfl (by decide)
  have h3 := (override_precedence_spec emptyCfg none none).2.2.1 (by decide)
  have h4 := (override_precedence_spec emptyCfg none none).2.2.2 (by decide)
  exact ⟨h1.1, h1.2, h3, h4⟩

/-- C7: when a model_config row is found and carries a (truthy) name, the
resolved model version is that name, overriding any caller-requested
version; when no row is found and no version was requested, the resolved
version is the hardcoded google/nano-banana-pro with an empty parameter
set; when no row is found but a version was requested, the requested value
is kept. -/
theorem version_precedence_spec (row : Option ModelRecord) (requested : Option String) :
    (∀ r nm, row = some r → r.name = some nm → nm ≠ "" →
        (resolve_version (get_model_config row) requested).model_version = some nm) ∧
    (row = none → requested = none →
        resolve_version (get_model_config row) requested =
          { model_version := some default_model_version, db_config := emptyCfg }) ∧
    (row = none → ∀ v, requested = some v →
        (resolve_version (get_model_config row) requested).model_version = some v) := by
  refine ⟨?_, ?_, ?_⟩
  · rintro r nm rfl hnm hne
    have ht : truthy (some nm) = true := by simp [truthy, hne]
    simp [get_model_config, hnm, ht, resolve_version]
  · rintro rfl rfl
    rfl
  · rintro rfl v rfl
    rfl

/-- C7 witness: a found record named google/nano-banana-pro-v2 overrides the
caller request caller/v1; no record with no request falls back to the
builtin default and empty config; no record with request caller/v1 keeps
caller/v1. -/
theorem version_precedence_spec_witness :
    (resolve_version (get_model_config (some sampleModelRecord)) (some "caller/v1")).model_version
      = some "google/nano-banana-pro-v2" ∧
    resolve_version (get_model_config none) none =
      { model_version := some default_model_version, db_config := emptyCfg } ∧
    (resolve_version (get_model_config none) (some "caller/v1")).model_version = some "caller/v1" :=
  ⟨(version_precedence_spec (some sampleModelRecord) (some "caller/v1")).1
      sampleModelRecord "google/nano-banana-pro-v2" rfl rfl (by decide),
   (version_precedence_spec none none).2.1 rfl rfl,
   (version_precedence_spec none (some "caller/v1")).2.2 rfl "caller/v1" rfl⟩

/-- The category run_flow works with is always truthy once configuration is
needed: a truthy provided category is kept and otherwise the selected
category MD is used. -/
theorem truthy_resolve_category (category : Option String) :
    truthy (resolve_category category true) = true := by
  by_cases h : truthy category
  · have hc : resolve_category category true = category := by
      simp [resolve_category, h]
    rw [hc]
    exact h
  · have hc : resolve_category category true = some get_random_category := by
      simp [resolve_category, h]
    rw [hc]
    rfl

/-- Evaluation of run_flow when both images and prompts are caller-supplied:
no configuration is needed and no collaborator call happens. -/
theorem run_flow_all_provided (env : Env) (category : Option String)
    (mn mx : Option Int) (mode : String) (l ps : List String) :
    run_flow env category mn mx mode (some l) (some ps) =
      Except.ok (⟨resolve_category category false, l, ps⟩, []) := by
  simp [run_flow]

/-- Evaluation of run_flow when prompts are caller-supplied but images are
not: the prompt config is fetched, images come from it when a record
exists, and the provided prompts are kept. -/
theorem run_flow_images_missing (env : Env) (category : Option String)
    (mn mx : Option Int) (mode : String) (ps : List String) :
    run_flow env category mn mx mode none (some ps) =
      Except.ok (⟨resolve_category category true,
        (match env.getPromptConfig ((resolve_category category true).getD "") with
         | some cfg => config_image_urls cfg.image_urls
         | none => []),
        ps⟩,
        Event.fetchPromptConfig ((resolve_category category true).getD "") ::
          (match env.getPromptConfig ((resolve_category category true).getD "") with
           | some _ => [Event.imagesFromConfig]
           | none => [])) := by
  have ht := truthy_resolve_category category
  cases hcfg : env.getPromptConfig ((resolve_category category true).getD "") <;>
    simp [run_flow, ht, hcfg]

/-- Evaluation of run_flow when prompts are missing and the store yields no
record: the flow completes with empty defaults instead of raising. -/
theorem run_flow_no_config (env : Env) (category : Option String)
    (mn mx : Option Int) (mode : String) (pimg : Option (List String))
    (hcfg : env.getPromptConfig ((resolve_category category true).getD "") = none) :
    run_flow env category mn mx mode pimg none =
      Except.ok (⟨resolve_category category true, pimg.getD [], []⟩,
        [Event.fetchPromptConfig ((resolve_category category true).getD "")]) := by
  have ht := truthy_resolve_category category
  cases pimg <;> simp [run_flow, ht, hcfg]

/-- Evaluation of run_flow through the generation path: prompts missing, a
record found, and a valid count range. -/
theorem run_flow_generation (env : Env) (category : Option String)
    (mn mx : Option Int) (mode : String) (pimg : Option (List String))
    (cfg : PromptConfig)
    (hcfg : env.getPromptConfig ((resolve_category category true).getD "") = some cfg)
    (hrange : mn.getD 2 ≤ mx.getD 5) :
    run_flow env category mn mx mode pimg none =
      Except.ok (⟨resolve_category category true,
        (match pimg with
         | some l => l
         | none => config_image_urls cfg.image_urls),
        env.openai (compose_instruction cfg mode env.choiceIdx)
          (randval (mn.getD 2) (mx.getD 5) env.randSeed)⟩,
        [Event.fetchPromptConfig ((resolve_category category true).getD "")] ++
        (match pimg with
         | some _ => []
         | none => [Event.imagesFromConfig]) ++
        [Event.openaiGenerate (compose_instruction cfg mode env.choiceIdx)
          (randval (mn.getD 2) (mx.getD 5) env.randSeed)] ++
        (if (env.openai (compose_instruction cfg mode env.choiceIdx)
              (randval (mn.getD 2) (mx.getD 5) env.randSeed)).isEmpty then []
         else [Event.appendPrompts ((resolve_category category true).getD "")
            (env.openai (compose_instruction cfg mode env.choiceIdx)
              (randval (mn.getD 2) (mx.getD 5) env.randSeed))])) := by
  have ht := truthy_resolve_category category
  have hr : get_random_prompt_count (mn.getD 2) (mx.getD 5) env.randSeed =
      Except.ok (randval (mn.getD 2) (mx.getD 5) env.randSeed) := by
    simp [get_random_prompt_count, randint, hrange]
  cases pimg <;> simp [run_flow, ht, hcfg, hr]

/-- Evaluation of run_flow when prompts are missing, a record is found, and
the count range is invalid: the ValueError of random.randint escapes. -/
theorem run_flow_bad_range (env : Env) (category : Option String)
    (mn mx : Option Int) (mode : String) (pimg : Option (List String))
    (cfg : PromptConfig)
    (hcfg : env.getPromptConfig ((resolve_category category true).getD "") = some cfg)
    (hrange : ¬ mn.getD 2 ≤ mx.getD 5) :
    run_flow env category mn mx mode pimg none =
      Except.error "empty range for randrange" := by
  have ht := truthy_resolve_category category
  have hr : get_random_prompt_count (mn.getD 2) (mx.getD 5) env.randSeed =
      Except.error "empty range for randrange" := by
    simp [get_random_prompt_count, randint, hrange]
  cases pimg <;> simp [run_flow, ht, hcfg, hr]

/-- C2 counterexample: with prompts supplied non-empty but imageUrls absent,
run_flow does call the ConfigStore prompt-template fetch (to resolve the
image list): the claim that the fetch is skipped regardless of whether
imageUrls is supplied fails on this input. -/
theorem prompts_store_call_cex :
    run_flow envNoStore (some "MD") none none "standard" none (some ["a cat"]) =
      Except.ok (⟨some "MD", [], ["a cat"]⟩, [Event.fetchPromptConfig "MD"]) ∧
    Event.fetchPromptConfig "MD" ∈ [Event.fetchPromptConfig "MD"] ∧
    (["a cat"] : List String) ≠ [] := by
  refine ⟨rfl, ?_, by decide⟩
  simp

/-- C2 (amended): for every JobRequest whose prompts field is supplied
(in particular non-empty), run_flow never invokes the PromptExpander; and
when imageUrls is also supplied, it makes no store call at all (the trace
is empty). When imageUrls is absent the template fetch may still run, to
resolve the image list only. -/
theorem prompts_skip_generation_spec (env : Env) (category : Option String)
    (mn mx : Option Int) (mode : String) (pimg : Option (List String))
    (ps : List String) ( _hps : ps ≠ [])
    (res : FlowResult) (trace : List Event)
    (h : run_flow env category mn mx mode pimg (some ps) = Except.ok (res, trace)) :
    res.prompts = ps ∧
    (∀ instr k, Event.openaiGenerate instr k ∉ trace) ∧
    (∀ l, pimg = some l → trace = []) := by
  cases pimg with
  | some l =>
      rw [run_flow_all_provided] at h
      simp only [Except.ok.injEq, Prod.mk.injEq] at h
      obtain ⟨hres, htrace⟩ := h
      subst hres
      subst htrace
      exact ⟨rfl, by simp, fun _ _ => rfl⟩
  | none =>
      rw [run_flow_images_missing] at h
      simp only [Except.ok.injEq, Prod.mk.injEq] at h
      obtain ⟨hres, htrace⟩ := h
      subst hres
      subst htrace
      refine ⟨rfl, ?_, ?_⟩
      · intro instr k
        cases env.getPromptConfig ((resolve_category category true).getD "") <;> simp
      · intro l hl
        exact Option.noConfusion hl

/-- C2 witness: the end-to-end scenario with category MD, prompts a cat and
imageUrls the empty list resolves to the same triple with an empty trace,
hence zero store calls and no PromptExpander call. -/
theorem prompts_skip_generation_spec_witness :
    (⟨some "MD", [], ["a cat"]⟩ : FlowResult).prompts = ["a cat"] ∧
    (∀ instr k, Event.openaiGenerate instr k ∉ ([] : List Event)) := by
  have h := prompts_skip_generation_spec envNoStore (some "MD") none none "standard"
    (some []) ["a cat"] (by decide) ⟨some "MD", [], ["a cat"]⟩ [] rfl
  exact ⟨h.1, h.2.1⟩

/-- C4: whenever run_flow returns, a supplied imageUrls list (any length,
empty included) is returned unchanged and no category-driven image lookup
happens; with imageUrls absent, the returned image list is the fetched
record field taken as-is when a list, split on commas with entries trimmed
when a string, and empty when neither or when no record was found. -/
theorem image_resolution_spec (env : Env) (category : Option String)
    (mn mx : Option Int) (mode : String) (pimg pprompts : Option (List String))
    (res : FlowResult) (trace : List Event)
    (h : run_flow env category mn mx mode pimg pprompts = Except.ok (res, trace)) :
    (∀ l, pimg = some l → res.image_urls = l ∧ Event.imagesFromConfig ∉ trace) ∧
    (pimg = none →
      (∀ cfg, env.getPromptConfig ((resolve_category category true).getD "") = some cfg →
          res.image_urls =
            match cfg.image_urls with
            | PyVal.list l => l
            | PyVal.str s => (py_split s ',').map py_strip
            | PyVal.null => []) ∧
      (env.getPromptConfig ((resolve_category category true).getD "") = none →
          res.image_urls = [])) := by
  have himg : ∀ cfg : PromptConfig,
      config_image_urls cfg.image_urls =
        match cfg.image_urls with
        | PyVal.list l => l
        | PyVal.str s => (py_split s ',').map py_strip
        | PyVal.null => [] := by
    intro cfg
    cases cfg.image_urls <;> rfl
  cases pprompts with
  | some ps =>
      cases pimg with
      | some l =>
          rw [run_flow_all_provided] at h
          simp only [Except.ok.injEq, Prod.mk.injEq] at h
          obtain ⟨hres, htrace⟩ := h
          subst hres
          subst htrace
          refine ⟨?_, ?_⟩
          · rintro l2 hl2
            cases hl2
            exact ⟨rfl, by simp⟩
          · rintro hl2
            exact Option.noConfusion hl2
      | none =>
          rw [run_flow_images_missing] at h
          simp only [Except.ok.injEq, Prod.mk.injEq] at h
          obtain ⟨hres, htrace⟩ := h
          subst hres
          subst htrace
          refine ⟨?_, ?_⟩
          · rintro l2 hl2
            exact Option.noConfusion hl2
          · intro _
            constructor
            · intro cfg hcfg
              rw [hcfg]
              exact himg cfg
            · intro hcfg
              rw [hcfg]
  | none =>
      cases hcfg : env.getPromptConfig ((resolve_category category true).getD "") with
      | none =>
          rw [run_flow_no_config env category mn mx mode pimg hcfg] at h
          simp only [Except.ok.injEq, Prod.mk.injEq] at h
          obtain ⟨hres, htrace⟩ := h
          subst hres
          subst htrace
          refine ⟨?_, ?_⟩
          · rintro l hl
            subst hl
            exact ⟨rfl, by simp⟩
          · intro hpn
            subst hpn
            exact ⟨fun cfg hc => Option.noConfusion hc, fun _ => rfl⟩
      | some cfg =>
          by_cases hrange : mn.getD 2 ≤ mx.getD 5
          · rw [run_flow_generation env category mn mx mode pimg cfg hcfg hrange] at h
            simp only [Except.ok.injEq, Prod.mk.injEq] at h
            obtain ⟨hres, htrace⟩ := h
            subst hres
            subst htrace
            refine ⟨?_, ?_⟩
            · rintro l hl
              subst hl
              refine ⟨rfl, ?_⟩
              simp only [List.mem_append, List.mem_singleton, List.not_mem_nil]
              split <;> simp
            · intro hpn
              subst hpn
              refine ⟨?_, ?_⟩
              · intro cfg2 hcfg2
                injection hcfg2 with hcc
                subst hcc
                simpa using himg cfg
              · intro hc
                exact Option.noConfusion hc
          · rw [run_flow_bad_range env category mn mx mode pimg cfg hcfg hrange] at h
            exact Except.noConfusion h

/-- C4 witness: a supplied list comes back unchanged, and with images absent a
stored comma-joined string resolves to the split-and-trimmed entries. -/
theorem image_resolution_spec_witness :
    (⟨some "MD", ["given.png"], ["p"]⟩ : FlowResult).image_urls = ["given.png"] ∧
    (⟨some "MD", ["http://a.png", "http://b.png"], ["p"]⟩ : FlowResult).image_urls =
      (py_split "http://a.png, http://b.png" ',').map py_strip := by
  constructor
  · exact ((image_resolution_spec envNoStore (some "MD") none none "standard"
      (some ["given.png"]) (some ["p"])
      ⟨some "MD", ["given.png"], ["p"]⟩ [] rfl).1 ["given.png"] rfl).1
  · have h := (image_resolution_spec envStoreNoGen none none none "standard"
      none (some ["p"])
      ⟨some "MD", ["http://a.png", "http://b.png"], ["p"]⟩
      [Event.fetchPromptConfig "MD", Event.imagesFromConfig] rfl).2 rfl
    exact h.1 sampleCfgStrImages rfl

/-- random.choice of a nonempty list is one of its elements (helper). -/
theorem pychoice_mem (l : List String) (idx : Nat) (h : l ≠ []) :
    pychoice l idx ∈ l := by
  have hlen : idx % l.length < l.length := Nat.mod_lt _ (List.length_pos.mpr h)
  rw [pychoice, List.getD_eq_getElem l "" hlen]
  exact List.getElem_mem hlen

/-- C8: with mode random the instruction variant is drawn from the
dynamic-variant list and with any other mode from the standard-variant
list; a value that is not a nonempty list yields the empty instruction
instead of an error; and the instruction handed to the PromptExpander is
the system prompt concatenated with the selected variant, separated by a
blank line. -/
theorem instruction_selection_spec (cfg : PromptConfig) (mode : String) (idx : Nat) :
    (mode = "random" → ∀ l, cfg.dynamic_prompt = PyVal.list l → l ≠ [] →
        select_instruction cfg mode idx ∈ l) ∧
    (mode ≠ "random" → ∀ l, cfg.standard_prompt = PyVal.list l → l ≠ [] →
        select_instruction cfg mode idx ∈ l) ∧
    (mode = "random" → (∀ l, cfg.dynamic_prompt = PyVal.list l → l = []) →
        select_instruction cfg mode idx = "") ∧
    (mode ≠ "random" → (∀ l, cfg.standard_prompt = PyVal.list l → l = []) →
        select_instruction cfg mode idx = "") ∧
    compose_instruction cfg mode idx =
      cfg.system_prompt.getD "" ++ "\n\n" ++ select_instruction cfg mode idx ∧
    (∀ (env : Env) (category : Option String) (mn mx : Option Int)
        (pimg : Option (List String)),
        env.choiceIdx = idx →
        env.getPromptConfig ((resolve_category category true).getD "") = some cfg →
        mn.getD 2 ≤ mx.getD 5 →
        ∀ res trace, run_flow env category mn mx mode pimg none = Except.ok (res, trace) →
          Event.openaiGenerate (compose_instruction cfg mode idx)
            (randval (mn.getD 2) (mx.getD 5) env.randSeed) ∈ trace) := by
  refine ⟨?_, ?_, ?_, ?_, rfl, ?_⟩
  · intro hm l hl hne
    subst hm
    have hb : (("random" : String) == "random") = true := by simp
    simp only [select_instruction, hb, if_true, hl, List.isEmpty_eq_false.mpr hne,
      Bool.false_eq_true, if_false]
    exact pychoice_mem l idx hne
  · intro hm l hl hne
    have hb : ((mode : String) == "random") = false := by
      simp [hm]
    simp only [select_instruction, hb, Bool.false_eq_true, if_false, hl,
      List.isEmpty_eq_false.mpr hne]
    exact pychoice_mem l idx hne
  · intro hm hall
    subst hm
    have hb : (("random" : String) == "random") = true := by simp
    cases hdyn : cfg.dynamic_prompt with
    | str s => simp [select_instruction, hb, hdyn]
    | list l =>
        have := hall l hdyn
        subst this
        simp [select_instruction, hb, hdyn]
    | null => simp [select_instruction, hb, hdyn]
  · intro hm hall
    have hb : ((mode : String) == "random") = false := by
      simp [hm]
    cases hstd : cfg.standard_prompt with
    | str s => simp [select_instruction, hb, hstd]
    | list l =>
        have := hall l hstd
        subst this
        simp [select_instruction, hb, hstd]
    | null => simp [select_instruction, hb, hstd]
  · intro env category mn mx pimg hidx hcfg hrange res trace h
    rw [run_flow_generation env category mn mx mode pimg cfg hcfg hrange] at h
    simp only [Except.ok.injEq, Prod.mk.injEq] at h
    obtain ⟨hres, htrace⟩ := h
    subst htrace
    subst hidx
    simp

/-- C8 witness: on a config with dynamic variants d1 d2 and standard variants
s1 s2, mode random draws a dynamic variant and mode standard a standard
one; the composed instruction is the system prompt, a blank line and the
variant; and a run through the generation path emits that instruction to
the PromptExpander. -/
theorem instruction_selection_spec_witness :
    select_instruction sampleCfgStrImages "random" 1 ∈ ["d1", "d2"] ∧
    select_instruction sampleCfgStrImages "standard" 0 ∈ ["s1", "s2"] ∧
    compose_instruction sampleCfgStrImages "standard" 0 =
      "SYS" ++ "\n\n" ++ select_instruction sampleCfgStrImages "standard" 0 ∧
    Event.openaiGenerate (compose_instruction sampleCfgStrImages "standard" 0)
        (randval 2 5 0) ∈
      [Event.fetchPromptConfig "MD", Event.imagesFromConfig,
       Event.openaiGenerate (compose_instruction sampleCfgStrImages "standard" 0)
         (randval 2 5 0),
       Event.appendPrompts "MD" ["generated prompt"]] := by
  refine ⟨?_, ?_, ?_, ?_⟩
  · exact (instruction_selection_spec sampleCfgStrImages "random" 1).1 rfl
      ["d1", "d2"] rfl (by decide)
  · exact (instruction_selection_spec sampleCfgStrImages "standard" 0).2.1 (by decide)
      ["s1", "s2"] rfl (by decide)
  · exact (instruction_selection_spec sampleCfgStrImages "standard" 0).2.2.2.2.1
  · exact (instruction_selection_spec sampleCfgStrImages "standard" 0).2.2.2.2.2
      envStoreGen none none none none rfl rfl (by decide)
      ⟨some "MD", ["http://a.png", "http://b.png"], ["generated prompt"]⟩
      [Event.fetchPromptConfig "MD", Event.imagesFromConfig,
       Event.openaiGenerate (compose_instruction sampleCfgStrImages "standard" 0)
         (randval 2 5 0),
       Event.appendPrompts "MD" ["generated prompt"]] rfl

/-- C10: when the store is unavailable or the prompt-template lookup finds no
record (both are the None lookup result, the store manager catching its
own exceptions), run_flow does not raise: it completes and returns the
triple, defaulting an unresolved image list and prompt list to empty
lists; and when the PromptExpander call fails (it catches its own error
and returns the empty list), the flow still completes with exactly zero
generated prompts. -/
theorem degradation_spec (env : Env) (category : Option String)
    (mn mx : Option Int) (mode : String) :
    (env.getPromptConfig ((resolve_category category true).getD "") = none →
      ∀ pimg : Option (List String),
        run_flow env category mn mx mode pimg none =
          Except.ok (⟨resolve_category category true, pimg.getD [], []⟩,
            [Event.fetchPromptConfig ((resolve_category category true).getD "")])) ∧
    (∀ cfg, env.getPromptConfig ((resolve_category category true).getD "") = some cfg →
      mn.getD 2 ≤ mx.getD 5 →
      (∀ instr k, env.openai instr k = []) →
      run_flow env category mn mx mode none none =
        Except.ok (⟨resolve_category category true,
            config_image_urls cfg.image_urls, []⟩,
          [Event.fetchPromptConfig ((resolve_category category true).getD ""),
           Event.imagesFromConfig,
           Event.openaiGenerate (compose_instruction cfg mode env.choiceIdx)
             (randval (mn.getD 2) (mx.getD 5) env.randSeed)])) := by
  constructor
  · intro hcfg pimg
    exact run_flow_no_config env category mn mx mode pimg hcfg
  · intro cfg hcfg hrange hopenai
    rw [run_flow_generation env category mn mx mode none cfg hcfg hrange]
    simp [hopenai]

/-- C10 witness: with no record the flow returns the triple with empty images
and prompts; with a record but a failing PromptExpander it completes with
zero prompts. -/
theorem degradation_spec_witness :
    run_flow envNoStore none none none "standard" none none =
      Except.ok (⟨resolve_category none true, [], []⟩,
        [Event.fetchPromptConfig ((resolve_category none true).getD "")]) ∧
    run_flow envStoreNoGen none none none "standard" none none =
      Except.ok (⟨resolve_category none true,
          config_image_urls sampleCfgStrImages.image_urls, []⟩,
        [Event.fetchPromptConfig ((resolve_category none true).getD ""),
         Event.imagesFromConfig,
         Event.openaiGenerate
           (compose_instruction sampleCfgStrImages "standard" envStoreNoGen.choiceIdx)
           (randval ((none : Option Int).getD 2) ((none : Option Int).getD 5)
             envStoreNoGen.randSeed)]) :=
  ⟨(degradation_spec envNoStore none none none "standard").1 rfl none,
   (degradation_spec envStoreNoGen none none none "standard").2 sampleCfgStrImages
     rfl (by decide) (fun _ _ => rfl)⟩

end ImageAgent
